import Mathlib

/-!
Shallow embedding of the perplexity-client core: the conversation context
manager and completion gateway of `PerplexityClient`
(src/public/js/app.js) and the Express `POST /chat` handler
(src/unnamed/part_001). Network effects (the provider's responses and
failures) are supplied to the embedded functions as explicit arguments.
-/

/-- A chat message, the JS object `{role, content}`. -/
structure Message where
  role : String
  content : String
deriving DecidableEq, Repr

/-- The `reduce((sum, msg) => sum + msg.content.length, 0)` accumulation
inside `shouldSummarize`. -/
def totalContentChars (messages : List Message) : Nat :=
  messages.foldl (fun sum msg => sum + msg.content.length) 0

/-- `PerplexityClient.shouldSummarize(messages, maxMessages = 20,
maxTokensEstimate = 3000)`: true if `messages.length >= maxMessages`,
otherwise true iff `totalChars >= maxTokensEstimate * 4`. -/
def shouldSummarize (messages : List Message)
    (maxMessages maxTokensEstimate : Nat) : Bool :=
  if messages.length ≥ maxMessages then true
  else decide (totalContentChars messages ≥ maxTokensEstimate * 4)

/-- One element of the provider response's `choices` array. -/
structure Choice where
  message : Message
deriving DecidableEq, Repr

/-- The provider's completion response body, `{choices: [...]}`. -/
structure CompletionResponse where
  choices : List Choice
deriving DecidableEq, Repr

/-- JavaScript `a || b` where `a` is an optionally present string:
`undefined`/`null` and the empty string are falsy and select `b`. -/
def jsOrElse (a : Option String) (b : String) : String :=
  match a with
  | none => b
  | some s => if s = "" then b else s

/-- The optional chaining `response.choices?.[0]?.message?.content`. -/
def extractedContent (response : CompletionResponse) : Option String :=
  response.choices.head?.map (fun c => c.message.content)

/-- The one-message list `PerplexityClient.ask` builds from its question. -/
def askRequestMessages (question : String) : List Message :=
  [⟨"user", question⟩]

/-- Return value of `PerplexityClient.ask` as a function of the provider
response: `response.choices?.[0]?.message?.content || 'No response received'`. -/
def ask (question : String) (response : CompletionResponse) : String :=
  jsOrElse (extractedContent response) "No response received"

/-- Return value of `PerplexityClient.askWithContext` as a function of the
provider response; the extraction is identical to `ask`. -/
def askWithContext (question : String) (context : List Message)
    (response : CompletionResponse) : String :=
  jsOrElse (extractedContent response) "No response received"

/-- The caller-supplied options bag. Of its keys, only `messages` can change
which message list reaches the wire: `askWithContext` passes
`{messages, ...options}`, so an explicit `options.messages` overrides the
one it just built; the remaining keys (model, temperature, ...) never touch
the message list and are not modelled. -/
structure RequestOptions where
  messages : Option (List Message)

/-- The `messages` value inside the object `askWithContext` passes to
`chatCompletion`: `[...context, {role:'user', content: question}]`, unless
`options` spreads its own `messages` over it. -/
def askWithContextMessages (question : String) (context : List Message)
    (options : RequestOptions) : Option (List Message) :=
  match options.messages with
  | some ms => some ms
  | none => some (context ++ [⟨"user", question⟩])

/-- `chatCompletion`'s handling of `messages`: a missing array throws
"Messages array is required"; otherwise `requestData.messages` is exactly
the given list. `.ok ms` is the message list of the outbound request. -/
def chatCompletionRequestMessages (messages : Option (List Message)) :
    Except String (List Message) :=
  match messages with
  | none => Except.error "Messages array is required"
  | some ms => Except.ok ms

/-- The message list of the request `askWithContext question context options`
submits to the completion call. -/
def askWithContextRequest (question : String) (context : List Message)
    (options : RequestOptions) : Except String (List Message) :=
  chatCompletionRequestMessages (askWithContextMessages question context options)

/-- The `data` body of a provider error response; `errorMessage` stands for
`data?.error?.message` and `dataMessage` for `data?.message`. -/
structure ErrorData where
  errorMessage : Option String
  dataMessage : Option String
deriving Repr

/-- `error.response` when the provider answered with a failure status. -/
structure ErrorResponse where
  status : Nat
  statusText : String
  data : ErrorData
deriving Repr

/-- The axios-style error object `handleError` inspects: `response` is set
when the provider answered with an error status, `request` is truthy when a
request went out but no response came back. -/
structure JsError where
  response : Option ErrorResponse
  request : Bool
  message : String
deriving Repr

/-- Message of the error thrown by `PerplexityClient.handleError`. -/
def handleError (error : JsError) : String :=
  match error.response with
  | some r =>
      "Perplexity API Error " ++ toString r.status ++ " (" ++ r.statusText
        ++ "): " ++ jsOrElse r.data.errorMessage
            (jsOrElse r.data.dataMessage "Unknown error")
  | none =>
      if error.request then
        "No response from Perplexity API. Check your internet connection."
      else
        "Request Error: " ++ error.message

/-- The `POST /chat` handler as a function of the incoming message list and
of the outcome of its `summarizeConversation` call (the network effect,
passed in as an argument). `.ok finalMessages` means the handler reached
`chatCompletion({messages: finalMessages, ...})` with that list;
`.error e` means the summarization failure `e` escaped to the handler's
catch block before any completion request was issued. In the summarizing
branch `messages.length >= 2`, so the `getLastD` default (JS `undefined`)
is unreachable. -/
def chatHandlerCompletionMessages (messages : List Message)
    (summarizeOutcome : Except String String) : Except String (List Message) :=
  if shouldSummarize messages 20 3000 then
    let messagesToSummarize := messages.dropLast
    if messagesToSummarize.length > 0 then
      match summarizeOutcome with
      | Except.error e => Except.error e
      | Except.ok summaryText =>
          Except.ok [⟨"system", "Previous conversation summary: " ++ summaryText⟩,
            messages.getLastD ⟨"", ""⟩]
    else Except.ok messages
  else Except.ok messages

/-- `PerplexityClient.getApiKey`: masks all but the first 8 characters, i.e.
`apiKey.substring(0, 8) + '*'.repeat(Math.max(0, apiKey.length - 8))`, and
returns a placeholder for an empty (falsy) key. -/
def getApiKey (apiKey : String) : String :=
  if apiKey = "" then "No API key set"
  else String.mk (apiKey.data.take 8 ++ List.replicate (apiKey.length - 8) '*')

/-- Splitting off the last message splits the character count. -/
theorem totalContentChars_append (c : List Message) (m : Message) :
    totalContentChars (c ++ [m]) = totalContentChars c + m.content.length := by
  simp [totalContentChars, List.foldl_append]

/-- C1: for a conversation below the default message-count threshold,
`shouldSummarize` with the default thresholds is true when the total content
length is exactly 3000 * 4 = 12000 characters and false at 11999. -/
theorem shouldSummarize_boundary (messages : List Message)
    (hlen : messages.length < 20) :
    (totalContentChars messages = 12000 → shouldSummarize messages 20 3000 = true) ∧
    (totalContentChars messages = 11999 → shouldSummarize messages 20 3000 = false) := by
  have h : ¬ messages.length ≥ 20 := by omega
  constructor <;> intro ht <;> simp [shouldSummarize, h, ht]

/-- Witness for C1 at one-message conversations of content length 12000
and 11999. -/
theorem shouldSummarize_boundary_witness :
    shouldSummarize [⟨"user", String.mk (List.replicate 12000 'a')⟩] 20 3000 = true ∧
    shouldSummarize [⟨"user", String.mk (List.replicate 11999 'a')⟩] 20 3000 = false :=
  ⟨(shouldSummarize_boundary _ (by simp)).1
    (by simp only [totalContentChars, List.foldl_cons, List.foldl_nil,
      String.length_mk, List.length_replicate, Nat.zero_add]),
   (shouldSummarize_boundary _ (by simp)).2
    (by simp only [totalContentChars, List.foldl_cons, List.foldl_nil,
      String.length_mk, List.length_replicate, Nat.zero_add])⟩

/-- C3: any conversation of at least 20 messages is summarized under the
default thresholds, whatever its contents. -/
theorem shouldSummarize_of_count (messages : List Message)
    (h : messages.length ≥ 20) :
    shouldSummarize messages 20 3000 = true := by
  simp [shouldSummarize, h]

/-- Witness for C3 at a 20-message conversation of empty contents. -/
theorem shouldSummarize_of_count_witness :
    shouldSummarize (List.replicate 20 (⟨"user", ""⟩ : Message)) 20 3000 = true :=
  shouldSummarize_of_count _ (by simp)

/-- C4: `shouldSummarize` is monotonic under appending a message, for any
fixed thresholds. -/
theorem shouldSummarize_monotone (c : List Message) (m : Message)
    (maxMessages maxTokensEstimate : Nat)
    (h : shouldSummarize c maxMessages maxTokensEstimate = true) :
    shouldSummarize (c ++ [m]) maxMessages maxTokensEstimate = true := by
  unfold shouldSummarize at h ⊢
  by_cases h3 : (c ++ [m]).length ≥ maxMessages
  · rw [if_pos h3]
  · have h1 : ¬ c.length ≥ maxMessages := by
      simp only [List.length_append, List.length_cons, List.length_nil] at h3
      omega
    rw [if_neg h1] at h
    rw [if_neg h3, totalContentChars_append]
    exact decide_eq_true (Nat.le_trans (of_decide_eq_true h) (Nat.le_add_right _ _))

/-- Witness for C4: appending to an already-triggering conversation. -/
theorem shouldSummarize_monotone_witness :
    shouldSummarize (List.replicate 20 (⟨"user", ""⟩ : Message) ++ [⟨"user", "x"⟩])
      20 3000 = true :=
  shouldSummarize_monotone _ _ _ _ (by decide)

/-- C5: when the caller's options do not override `messages`, the request
`askWithContext` submits carries exactly the prior messages with a single
user-role entry holding the question appended, in order, unmodified. -/
theorem askWithContext_request (question : String) (context : List Message)
    (options : RequestOptions) (h : options.messages = none) :
    askWithContextRequest question context options =
      Except.ok (context ++ [⟨"user", question⟩]) := by
  simp [askWithContextRequest, askWithContextMessages, chatCompletionRequestMessages, h]

/-- Witness for C5 at a concrete question and one-message context. -/
theorem askWithContext_request_witness :
    askWithContextRequest "What are neural networks?"
      [⟨"assistant", "Happy to help!"⟩] ⟨none⟩ =
      Except.ok [⟨"assistant", "Happy to help!"⟩,
        ⟨"user", "What are neural networks?"⟩] :=
  askWithContext_request "What are neural networks?"
    [⟨"assistant", "Happy to help!"⟩] ⟨none⟩ rfl

/-- C6: a response with an empty `choices` array makes `ask` return the
sentinel string, as a normal return value. -/
theorem ask_empty_choices (question : String) (response : CompletionResponse)
    (h : response.choices = []) :
    ask question response = "No response received" := by
  simp [ask, extractedContent, jsOrElse, h]

/-- Witness for C6 at a concrete question and the empty-choices response. -/
theorem ask_empty_choices_witness :
    ask "What is the capital of France?" ⟨[]⟩ = "No response received" :=
  ask_empty_choices "What is the capital of France?" ⟨[]⟩ rfl

/-- C9: a first choice whose message content is the empty string also
produces the sentinel, in both `ask` and `askWithContext`: the JS `||`
treats every falsy extracted content alike. -/
theorem ask_empty_content (question : String) (context : List Message)
    (response : CompletionResponse) (c : Choice)
    (hhead : response.choices.head? = some c) (hc : c.message.content = "") :
    ask question response = "No response received" ∧
    askWithContext question context response = "No response received" := by
  constructor <;> simp [ask, askWithContext, extractedContent, jsOrElse, hhead, hc]

/-- Witness for C9 at a response whose only choice has empty content. -/
theorem ask_empty_content_witness :
    ask "q" ⟨[⟨⟨"assistant", ""⟩⟩]⟩ = "No response received" ∧
    askWithContext "q" [⟨"user", "earlier"⟩] ⟨[⟨⟨"assistant", ""⟩⟩]⟩ =
      "No response received" :=
  ask_empty_content "q" [⟨"user", "earlier"⟩] ⟨[⟨⟨"assistant", ""⟩⟩]⟩
    ⟨⟨"assistant", ""⟩⟩ rfl rfl

/-- C2: a conversation of length at least 2 that triggers summarization is
compacted, and the completion call receives exactly the two-message list
made of the system summary message and the verbatim last input message. -/
theorem chat_compaction (c : List Message) (m : Message) (s : String)
    (hc : c ≠ []) (hs : shouldSummarize (c ++ [m]) 20 3000 = true) :
    chatHandlerCompletionMessages (c ++ [m]) (Except.ok s) =
      Except.ok [⟨"system", "Previous conversation summary: " ++ s⟩, m] := by
  unfold chatHandlerCompletionMessages
  rw [hs]
  simp [List.dropLast_concat, List.length_pos, hc, List.getLastD_concat]

/-- Witness for C2 at a 20-message conversation and summary "s". -/
theorem chat_compaction_witness :
    chatHandlerCompletionMessages
      (List.replicate 19 (⟨"user", ""⟩ : Message) ++ [⟨"user", "q"⟩])
      (Except.ok "s") =
      Except.ok [⟨"system", "Previous conversation summary: " ++ "s"⟩,
        ⟨"user", "q"⟩] :=
  chat_compaction _ _ _ (by simp) (by decide)

/-- C7: when summarization is triggered and the summarization call fails,
the handler propagates that failure and never reaches a completion call,
with any message list. -/
theorem chat_summarize_failure (c : List Message) (m : Message) (e : String)
    (hc : c ≠ []) (hs : shouldSummarize (c ++ [m]) 20 3000 = true) :
    chatHandlerCompletionMessages (c ++ [m]) (Except.error e) = Except.error e ∧
    ∀ finalMessages : List Message,
      chatHandlerCompletionMessages (c ++ [m]) (Except.error e) ≠
        Except.ok finalMessages := by
  have heq : chatHandlerCompletionMessages (c ++ [m]) (Except.error e) =
      Except.error e := by
    unfold chatHandlerCompletionMessages
    rw [hs]
    simp [List.dropLast_concat, List.length_pos, hc]
  exact ⟨heq, fun finalMessages hok => by rw [heq] at hok; exact Except.noConfusion hok⟩

/-- Witness for C7 at a 20-message conversation and a concrete failure. -/
theorem chat_summarize_failure_witness :
    chatHandlerCompletionMessages
      (List.replicate 19 (⟨"user", ""⟩ : Message) ++ [⟨"user", "q"⟩])
      (Except.error "upstream down") = Except.error "upstream down" :=
  (chat_summarize_failure _ _ _ (by simp) (by decide)).1

/-- C8: `handleError` is a total three-way case analysis. With a provider
error response, the message carries the upstream prefix and contains the
status code, the status text and the extracted provider message; with a
request but no response, it is the fixed connectivity message; otherwise it
is the generic request-error message. The three branches start with the
distinct characters 'P', 'N' and 'R', so the kinds never collide. -/
theorem handleError_taxonomy (error : JsError) :
    (∀ r, error.response = some r →
      handleError error =
        "Perplexity API Error " ++ toString r.status ++ " (" ++ r.statusText
          ++ "): " ++ jsOrElse r.data.errorMessage
            (jsOrElse r.data.dataMessage "Unknown error") ∧
      (∃ a b, handleError error = a ++ toString r.status ++ b) ∧
      (∃ a b, handleError error = a ++ r.statusText ++ b) ∧
      (∃ a b, handleError error =
        a ++ jsOrElse r.data.errorMessage
          (jsOrElse r.data.dataMessage "Unknown error") ++ b) ∧
      (handleError error).data.head? = some 'P') ∧
    (error.response = none → error.request = true →
      handleError error =
        "No response from Perplexity API. Check your internet connection." ∧
      (handleError error).data.head? = some 'N') ∧
    (error.response = none → error.request = false →
      handleError error = "Request Error: " ++ error.message ∧
      (handleError error).data.head? = some 'R') := by
  refine ⟨?_, ?_, ?_⟩
  · intro r h
    simp only [handleError, h]
    refine ⟨by simp [String.append_assoc],
      ⟨"Perplexity API Error ",
        " (" ++ r.statusText ++ "): " ++ jsOrElse r.data.errorMessage
          (jsOrElse r.data.dataMessage "Unknown error"),
        by simp [String.append_assoc]⟩,
      ⟨"Perplexity API Error " ++ toString r.status ++ " (",
        "): " ++ jsOrElse r.data.errorMessage
          (jsOrElse r.data.dataMessage "Unknown error"),
        by simp [String.append_assoc]⟩,
      ⟨"Perplexity API Error " ++ toString r.status ++ " (" ++ r.statusText
          ++ "): ", "",
        by simp [String.append_assoc, String.append_empty]⟩,
      rfl⟩
  · intro h hr
    have heq : handleError error =
        "No response from Perplexity API. Check your internet connection." := by
      simp [handleError, h, hr]
    exact ⟨heq, by rw [heq]; rfl⟩
  · intro h hr
    have heq : handleError error = "Request Error: " ++ error.message := by
      simp [handleError, h, hr]
    exact ⟨heq, by rw [heq]; rfl⟩

/-- Witness for C8 at one concrete error of each kind. -/
theorem handleError_taxonomy_witness :
    handleError ⟨some ⟨401, "Unauthorized", ⟨some "bad key", none⟩⟩, false, ""⟩ =
      "Perplexity API Error " ++ toString 401 ++ " (" ++ "Unauthorized"
        ++ "): " ++ jsOrElse (some "bad key") (jsOrElse none "Unknown error") ∧
    handleError ⟨none, true, ""⟩ =
      "No response from Perplexity API. Check your internet connection." ∧
    handleError ⟨none, false, "boom"⟩ = "Request Error: " ++ "boom" :=
  ⟨((handleError_taxonomy
      ⟨some ⟨401, "Unauthorized", ⟨some "bad key", none⟩⟩, false, ""⟩).1
      ⟨401, "Unauthorized", ⟨some "bad key", none⟩⟩ rfl).1,
   ((handleError_taxonomy ⟨none, true, ""⟩).2.1 rfl rfl).1,
   ((handleError_taxonomy ⟨none, false, "boom"⟩).2.2 rfl rfl).1⟩

/-- C10: for a non-empty key, `getApiKey` keeps the length, reproduces the
first `min 8 length` characters, masks every later position with '*', and
returns keys of length at most 8 entirely unmasked. -/
theorem getApiKey_mask (apiKey : String) (h : apiKey ≠ "") :
    (getApiKey apiKey).length = apiKey.length ∧
    (getApiKey apiKey).data.take (min 8 apiKey.length) =
      apiKey.data.take (min 8 apiKey.length) ∧
    (∀ ch ∈ (getApiKey apiKey).data.drop (min 8 apiKey.length), ch = '*') ∧
    (apiKey.length ≤ 8 → getApiKey apiKey = apiKey) := by
  have hd : getApiKey apiKey =
      String.mk (apiKey.data.take 8 ++ List.replicate (apiKey.length - 8) '*') := by
    simp [getApiKey, h]
  have hL : apiKey.length = apiKey.data.length := rfl
  have htlen : (apiKey.data.take 8).length = min 8 apiKey.length := by
    rw [List.length_take, hL]
  refine ⟨?_, ?_, ?_, ?_⟩
  · rw [hd, String.length_mk, List.length_append, List.length_replicate, htlen]
    omega
  · rw [hd]
    show (apiKey.data.take 8 ++ _).take _ = _
    rw [List.take_append_of_le_length (by rw [htlen]), List.take_take]
    congr 1
    omega
  · intro ch hch
    rw [hd] at hch
    replace hch : ch ∈ (apiKey.data.take 8 ++
        List.replicate (apiKey.length - 8) '*').drop (min 8 apiKey.length) := hch
    rw [← htlen, List.drop_left] at hch
    exact List.eq_of_mem_replicate hch
  · intro h8
    rw [hd]
    have h0 : apiKey.length - 8 = 0 := by omega
    rw [h0, List.replicate_zero, List.append_nil,
      List.take_of_length_le (by rw [← hL]; exact h8)]

/-- Witness for C10 at a 12-character key. -/
theorem getApiKey_mask_witness :
    (getApiKey "pplx-1234567").length = ("pplx-1234567" : String).length ∧
    (getApiKey "pplx-1234567").data.take (min 8 ("pplx-1234567" : String).length) =
      ("pplx-1234567" : String).data.take (min 8 ("pplx-1234567" : String).length) :=
  ⟨(getApiKey_mask "pplx-1234567" (by decide)).1,
   (getApiKey_mask "pplx-1234567" (by decide)).2.1⟩

